import Mathlib

set_option maxHeartbeats 1000000

/-!
Shallow embedding of the connectlog core (src/app.py): the temporal HR-profile
resolver, the zone labeler, and the daily readiness evaluator, together with
theorems settling the specification claims about them.
-/

/-- The four-valued metric status used throughout the readiness evaluator. -/
inductive Status where
  | green
  | yellow
  | red
  | unknown
deriving DecidableEq, Repr, Fintype

/-- Embeds `evaluate_metric` from the `/api/status` route: a `None` value is
`unknown`; otherwise the green test is tried first, then the yellow test,
else `red`. -/
def evaluate_metric (value : Option ℚ) (green_condition yellow_condition : ℚ → Bool) : Status :=
  match value with
  | none => Status.unknown
  | some v =>
    if green_condition v then Status.green
    else if yellow_condition v then Status.yellow
    else Status.red

/-- HRV classification: `evaluate_metric(hrv, v > 62, 58 <= v <= 62)`. -/
def hrv_status_of (v : Option ℚ) : Status :=
  evaluate_metric v (fun v => decide (v > 62)) (fun v => decide (58 ≤ v ∧ v ≤ 62))

/-- Body-battery-start classification: `evaluate_metric(bb, v > 75, 65 <= v <= 75)`. -/
def body_battery_status_of (v : Option ℚ) : Status :=
  evaluate_metric v (fun v => decide (v > 75)) (fun v => decide (65 ≤ v ∧ v ≤ 75))

/-- Sleep-score classification: `evaluate_metric(sleep, v > 75, 70 <= v <= 75)`. -/
def sleep_score_status_of (v : Option ℚ) : Status :=
  evaluate_metric v (fun v => decide (v > 75)) (fun v => decide (70 ≤ v ∧ v ≤ 75))

/-- Resting-HR classification: `evaluate_metric(rhr, v < 48, 48 <= v <= 50)`. -/
def resting_hr_status_of (v : Option ℚ) : Status :=
  evaluate_metric v (fun v => decide (v < 48)) (fun v => decide (48 ≤ v ∧ v ≤ 50))

/-- The `status_scores` dictionary: green 2, yellow 1, red 0, unknown None. -/
def status_scores (s : Status) : Option ℕ :=
  match s with
  | Status.green => some 2
  | Status.yellow => some 1
  | Status.red => some 0
  | Status.unknown => none

/-- Embeds the aggregation block of the `/api/status` route: filter out
`unknown`, look up each remaining status in `status_scores`, and decide the
overall status and recommendation from the mean score and the red count. -/
def overall_of (statuses : List Status) : Status × String :=
  let scores := (statuses.filter (fun s => s != Status.unknown)).filterMap status_scores
  if scores = [] then
    (Status.unknown, "Insufficient data to determine readiness")
  else
    let avg_score : ℚ := (scores.sum : ℚ) / (scores.length : ℚ)
    let red_count := (statuses.filter (fun s => s == Status.red)).length
    if 2 ≤ red_count ∨ avg_score < 1 then
      (Status.red, "Rest day recommended")
    else if (3 : ℚ) / 2 ≤ avg_score then
      (Status.green, "Training OK")
    else
      (Status.yellow, "Light activity only")

/-- The claim's numeric score for a status: green 2, yellow 1, red 0,
unknown excluded. -/
def claim_score (s : Status) : Option ℚ :=
  match s with
  | Status.green => some 2
  | Status.yellow => some 1
  | Status.red => some 0
  | Status.unknown => none

/-- Arithmetic mean of the included (non-excluded) scores, as the claim
describes it. -/
def claim_mean (statuses : List Status) : ℚ :=
  let included := statuses.filterMap claim_score
  included.sum / included.length

/-- Number of scored metrics that are red, as the claim describes it. -/
def claim_red_count (statuses : List Status) : ℕ :=
  statuses.countP (fun s => s == Status.red)

lemma claim_included_eq (sts : List Status) :
    sts.filterMap claim_score =
      ((sts.filter (fun s => s != Status.unknown)).filterMap status_scores).map
        (Nat.cast : ℕ → ℚ) := by
  induction sts with
  | nil => rfl
  | cons s rest ih => cases s <;> simp [List.filterMap_cons, List.filter_cons, status_scores,
      claim_score, ih]

lemma claim_mean_eq (sts : List Status) :
    claim_mean sts =
      ((((sts.filter (fun s => s != Status.unknown)).filterMap status_scores).sum : ℕ) : ℚ) /
        ((((sts.filter (fun s => s != Status.unknown)).filterMap status_scores).length : ℕ) : ℚ) := by
  rw [claim_mean, claim_included_eq, List.length_map, ← Nat.cast_list_sum]

lemma claim_red_count_eq (sts : List Status) :
    claim_red_count sts = (sts.filter (fun s => s == Status.red)).length := by
  rw [claim_red_count, List.countP_eq_length_filter]

lemma scores_nil_iff (sts : List Status) :
    (sts.filter (fun s => s != Status.unknown)).filterMap status_scores = [] ↔
      ∀ s ∈ sts, s = Status.unknown := by
  induction sts with
  | nil => simp
  | cons s rest ih => cases s <;> simp [List.filter_cons, List.filterMap_cons, status_scores, ih]

lemma overall_of_spec (sts : List Status) :
    ((∀ s ∈ sts, s = Status.unknown) →
      overall_of sts = (Status.unknown, "Insufficient data to determine readiness")) ∧
    (¬ (∀ s ∈ sts, s = Status.unknown) →
      ((2 ≤ claim_red_count sts ∨ claim_mean sts < 1) →
        overall_of sts = (Status.red, "Rest day recommended")) ∧
      (¬ (2 ≤ claim_red_count sts ∨ claim_mean sts < 1) →
        (3 : ℚ) / 2 ≤ claim_mean sts →
        overall_of sts = (Status.green, "Training OK")) ∧
      (¬ (2 ≤ claim_red_count sts ∨ claim_mean sts < 1) →
        claim_mean sts < (3 : ℚ) / 2 →
        overall_of sts = (Status.yellow, "Light activity only"))) := by
  constructor
  · intro hall
    simp only [overall_of, if_pos ((scores_nil_iff sts).2 hall)]
  · intro hne
    have hnil : ¬ (sts.filter (fun s => s != Status.unknown)).filterMap status_scores = [] :=
      fun h => hne ((scores_nil_iff sts).1 h)
    simp only [overall_of, if_neg hnil]
    rw [claim_mean_eq, claim_red_count_eq]
    refine ⟨fun hcond => ?_, fun hcond hmean => ?_, fun hcond hmean => ?_⟩
    · rw [if_pos hcond]
    · rw [if_neg hcond, if_pos hmean]
    · rw [if_neg hcond, if_neg (not_le.mpr hmean)]

/-- C1: the four scored statuses map to green=2, yellow=1, red=0 with unknown
excluded; all-unknown yields overall `unknown` with "Insufficient data to
determine readiness"; otherwise `red_count >= 2 OR mean < 1` yields `red` with
"Rest day recommended", else `mean >= 1.5` yields `green` with "Training OK",
else `yellow` with "Light activity only", evaluated in that order, so
red_count = 2 with mean = 1 yields red. -/
theorem readiness_aggregation (s1 s2 s3 s4 : Status) :
    (status_scores Status.green = some 2 ∧ status_scores Status.yellow = some 1 ∧
      status_scores Status.red = some 0 ∧ status_scores Status.unknown = none) ∧
    ((s1 = Status.unknown ∧ s2 = Status.unknown ∧ s3 = Status.unknown ∧ s4 = Status.unknown) →
      overall_of [s1, s2, s3, s4] =
        (Status.unknown, "Insufficient data to determine readiness")) ∧
    (¬ (s1 = Status.unknown ∧ s2 = Status.unknown ∧ s3 = Status.unknown ∧ s4 = Status.unknown) →
      ((2 ≤ claim_red_count [s1, s2, s3, s4] ∨ claim_mean [s1, s2, s3, s4] < 1) →
        overall_of [s1, s2, s3, s4] = (Status.red, "Rest day recommended")) ∧
      (¬ (2 ≤ claim_red_count [s1, s2, s3, s4] ∨ claim_mean [s1, s2, s3, s4] < 1) →
        (3 : ℚ) / 2 ≤ claim_mean [s1, s2, s3, s4] →
        overall_of [s1, s2, s3, s4] = (Status.green, "Training OK")) ∧
      (¬ (2 ≤ claim_red_count [s1, s2, s3, s4] ∨ claim_mean [s1, s2, s3, s4] < 1) →
        claim_mean [s1, s2, s3, s4] < (3 : ℚ) / 2 →
        overall_of [s1, s2, s3, s4] = (Status.yellow, "Light activity only"))) ∧
    overall_of [Status.red, Status.red, Status.green, Status.green] =
      (Status.red, "Rest day recommended") := by
  have h := overall_of_spec [s1, s2, s3, s4]
  refine ⟨⟨rfl, rfl, rfl, rfl⟩, ?_, ?_, ?_⟩
  · rintro ⟨h1, h2, h3, h4⟩
    refine h.1 ?_
    intro s hs
    simp only [List.mem_cons, List.not_mem_nil, or_false] at hs
    rcases hs with rfl | rfl | rfl | rfl <;> assumption
  · intro hnall
    refine h.2 fun hall => hnall ⟨hall s1 ?_, hall s2 ?_, hall s3 ?_, hall s4 ?_⟩ <;> simp
  · norm_num [overall_of, status_scores, List.filter_cons, List.filterMap_cons] <;> decide

/-- C1 witness: concrete aggregations through each decision branch. -/
theorem readiness_aggregation_witness :
    overall_of [Status.unknown, Status.unknown, Status.unknown, Status.unknown] =
      (Status.unknown, "Insufficient data to determine readiness") ∧
    overall_of [Status.red, Status.red, Status.green, Status.green] =
      (Status.red, "Rest day recommended") ∧
    overall_of [Status.green, Status.green, Status.green, Status.green] =
      (Status.green, "Training OK") ∧
    overall_of [Status.green, Status.yellow, Status.yellow, Status.unknown] =
      (Status.yellow, "Light activity only") :=
  ⟨(readiness_aggregation Status.unknown Status.unknown Status.unknown Status.unknown).2.1
      ⟨rfl, rfl, rfl, rfl⟩,
    (readiness_aggregation Status.red Status.red Status.green Status.green).2.2.2,
    ((readiness_aggregation Status.green Status.green Status.green Status.green).2.2.1
        (by simp)).2.1
      (by norm_num [claim_mean, claim_red_count, claim_score, List.filterMap_cons,
        List.countP_cons] <;> decide)
      (by norm_num [claim_mean, claim_score, List.filterMap_cons]),
    ((readiness_aggregation Status.green Status.yellow Status.yellow Status.unknown).2.2.1
        (by simp)).2.2
      (by norm_num [claim_mean, claim_red_count, claim_score, List.filterMap_cons,
        List.countP_cons] <;> decide)
      (by norm_num [claim_mean, claim_score, List.filterMap_cons])⟩

/-- C7: per-metric classification — a null value is `unknown`; the green test
is checked first, then yellow, else red; with the fixed thresholds of the four
scored metrics (HRV >62 / 58–62 / <58, body battery >75 / 65–75 / <65, sleep
score >75 / 70–75 / <70, resting HR <48 / 48–50 / >50). -/
theorem per_metric_classification (x : ℚ) :
    (hrv_status_of none = Status.unknown ∧
      body_battery_status_of none = Status.unknown ∧
      sleep_score_status_of none = Status.unknown ∧
      resting_hr_status_of none = Status.unknown) ∧
    ((hrv_status_of (some x) = Status.green ↔ 62 < x) ∧
      (hrv_status_of (some x) = Status.yellow ↔ 58 ≤ x ∧ x ≤ 62) ∧
      (hrv_status_of (some x) = Status.red ↔ x < 58)) ∧
    ((body_battery_status_of (some x) = Status.green ↔ 75 < x) ∧
      (body_battery_status_of (some x) = Status.yellow ↔ 65 ≤ x ∧ x ≤ 75) ∧
      (body_battery_status_of (some x) = Status.red ↔ x < 65)) ∧
    ((sleep_score_status_of (some x) = Status.green ↔ 75 < x) ∧
      (sleep_score_status_of (some x) = Status.yellow ↔ 70 ≤ x ∧ x ≤ 75) ∧
      (sleep_score_status_of (some x) = Status.red ↔ x < 70)) ∧
    ((resting_hr_status_of (some x) = Status.green ↔ x < 48) ∧
      (resting_hr_status_of (some x) = Status.yellow ↔ 48 ≤ x ∧ x ≤ 50) ∧
      (resting_hr_status_of (some x) = Status.red ↔ 50 < x)) := by
  refine ⟨⟨rfl, rfl, rfl, rfl⟩, ?_, ?_, ?_, ?_⟩ <;>
    simp only [hrv_status_of, body_battery_status_of, sleep_score_status_of,
      resting_hr_status_of, evaluate_metric, gt_iff_lt, decide_eq_true_eq] <;>
    refine ⟨?_, ?_, ?_⟩ <;>
    split_ifs <;>
    simp_all <;>
    linarith

/-- C7 witness: the HRV thresholds at a concrete value. -/
theorem per_metric_classification_witness :
    hrv_status_of (some 70) = Status.green ∧ resting_hr_status_of (some 49) = Status.yellow :=
  ⟨(per_metric_classification 70).2.1.1.mpr (by norm_num),
    (per_metric_classification 49).2.2.2.2.2.1.mpr (by norm_num)⟩

/-- One entry of a zone range table. -/
structure ZoneRange where
  label : String
  min_percent : ℕ
  max_percent : ℕ
deriving DecidableEq, Repr

/-- The `GARMIN_ZONE_RANGES` constant, ordered zone 5 down to zone 1. -/
def GARMIN_ZONE_RANGES : List ZoneRange :=
  [⟨"Zone 5", 90, 100⟩, ⟨"Zone 4", 80, 89⟩, ⟨"Zone 3", 70, 79⟩,
    ⟨"Zone 2", 60, 69⟩, ⟨"Zone 1", 50, 59⟩]

/-- The `OLYMPIATOPPEN_ZONE_RANGES` constant, ordered zone 5 down to zone 1. -/
def OLYMPIATOPPEN_ZONE_RANGES : List ZoneRange :=
  [⟨"I-5", 92, 100⟩, ⟨"I-4", 87, 91⟩, ⟨"I-3", 82, 86⟩,
    ⟨"I-2", 72, 81⟩, ⟨"I-1", 55, 71⟩]

/-- A per-activity zone observation `{zone, time_seconds}`. -/
structure ZoneObservation where
  zone : ℤ
  time_seconds : ℚ
deriving DecidableEq, Repr

/-- One formatted output row: the scheme-qualified label keyed to the zone
number, paired with the original `time_seconds`. -/
structure LabeledZone where
  label : String
  zone : ℤ
  time_seconds : ℚ
deriving DecidableEq, Repr

/-- Python sequence indexing `l[i]`: a negative index counts from the end of
the sequence; an index that is still out of range raises `IndexError`,
modelled as `none`. -/
def pyGet (l : List α) (i : ℤ) : Option α :=
  if i < 0 then
    if i + l.length < 0 then none else l[(i + l.length).toNat]?
  else
    l[i.toNat]?

/-- The scheme-name string chosen by `format_hr_zones_with_labels`. -/
def scheme_title (zone_scheme : String) : String :=
  if zone_scheme = "olympiatoppen" then "Olympiatoppen" else "Garmin"

/-- The range table chosen by `format_hr_zones_with_labels`. -/
def scheme_table (zone_scheme : String) : List ZoneRange :=
  if zone_scheme = "olympiatoppen" then OLYMPIATOPPEN_ZONE_RANGES else GARMIN_ZONE_RANGES

/-- The per-observation body of the formatting loop: look the zone up at
Python index `5 - zone` and attach the scheme-qualified label; a raised
`IndexError` is modelled as `Except.error`. -/
def label_one (zone_scheme : String) (zone_data : ZoneObservation) :
    Except String LabeledZone :=
  match pyGet (scheme_table zone_scheme) (5 - zone_data.zone) with
  | none => Except.error "IndexError: list index out of range"
  | some zone_range =>
    Except.ok
      ⟨zone_range.label ++ " (" ++ scheme_title zone_scheme ++ ")",
        zone_data.zone, zone_data.time_seconds⟩

/-- Embeds `format_hr_zones_with_labels`: a falsy (`None` or empty) zone list
yields `None`; otherwise every observation is labeled in input order. -/
def format_hr_zones_with_labels (zones : Option (List ZoneObservation))
    (zone_scheme : String) : Except String (Option (List LabeledZone)) :=
  match zones with
  | none => Except.ok none
  | some [] => Except.ok none
  | some zs => (zs.mapM (label_one zone_scheme)).map some

lemma scheme_table_length (zone_scheme : String) : (scheme_table zone_scheme).length = 5 := by
  rw [scheme_table]
  split <;> rfl

/-- The labeling the claim describes for one in-range observation: the table
entry at index `5 - zone`, scheme-qualified, paired with the original time. -/
def claim_labeled (zone_scheme : String) (ob : ZoneObservation) : LabeledZone :=
  ⟨((scheme_table zone_scheme)[(5 - ob.zone).toNat]?.getD ⟨"", 0, 0⟩).label ++
      " (" ++ scheme_title zone_scheme ++ ")",
    ob.zone, ob.time_seconds⟩

lemma label_one_in_range (zone_scheme : String) (ob : ZoneObservation)
    (h1 : 1 ≤ ob.zone) (h5 : ob.zone ≤ 5) :
    label_one zone_scheme ob = Except.ok (claim_labeled zone_scheme ob) := by
  have hidx : (5 - ob.zone).toNat < (scheme_table zone_scheme).length := by
    rw [scheme_table_length]
    omega
  rw [label_one, pyGet, if_neg (by omega), List.getElem?_eq_getElem hidx, claim_labeled,
    List.getElem?_eq_getElem hidx]
  rfl

lemma mapM_labels (zone_scheme : String) (zs : List ZoneObservation)
    (h : ∀ ob ∈ zs, 1 ≤ ob.zone ∧ ob.zone ≤ 5) :
    zs.mapM (label_one zone_scheme) = Except.ok (zs.map (claim_labeled zone_scheme)) := by
  induction zs with
  | nil => rfl
  | cons ob rest ih =>
    have hz := h ob (by simp)
    have hrest := ih fun o ho => h o (List.mem_cons_of_mem _ ho)
    rw [List.mapM_cons, label_one_in_range zone_scheme ob hz.1 hz.2, hrest, List.map_cons]
    rfl

/-- C6: labeling returns null for a null or empty observation list; for every
non-empty in-range list it returns one output per observation in input order,
choosing the olympiatoppen table iff the scheme equals "olympiatoppen" exactly
(case-sensitively; any other scheme gets the garmin table), labeling zone `z`
with the table entry at index `5 - z` and pairing the scheme-qualified label
with the original `time_seconds`; in particular a zone-5 observation of 120
seconds under "olympiatoppen" yields the single row `I-5 (Olympiatoppen)`. -/
theorem zone_labeling (zone_scheme : String) (zs : List ZoneObservation)
    (h : ∀ ob ∈ zs, 1 ≤ ob.zone ∧ ob.zone ≤ 5) :
    format_hr_zones_with_labels none zone_scheme = Except.ok none ∧
    format_hr_zones_with_labels (some []) zone_scheme = Except.ok none ∧
    (zs ≠ [] →
      format_hr_zones_with_labels (some zs) zone_scheme =
        Except.ok (some (zs.map (claim_labeled zone_scheme)))) ∧
    scheme_table "olympiatoppen" = OLYMPIATOPPEN_ZONE_RANGES ∧
    (zone_scheme ≠ "olympiatoppen" → scheme_table zone_scheme = GARMIN_ZONE_RANGES) ∧
    format_hr_zones_with_labels (some [⟨5, 120⟩]) "olympiatoppen" =
      Except.ok (some [⟨"I-5 (Olympiatoppen)", 5, 120⟩]) ∧
    format_hr_zones_with_labels (some [⟨5, 120⟩]) "Olympiatoppen" =
      Except.ok (some [⟨"Zone 5 (Garmin)", 5, 120⟩]) := by
  refine ⟨rfl, rfl, ?_, rfl, ?_, by rfl, by rfl⟩
  · intro hne
    match zs, h, hne with
    | ob :: rest, h, _ =>
      show ((ob :: rest).mapM (label_one zone_scheme)).map some =
        Except.ok (some ((ob :: rest).map (claim_labeled zone_scheme)))
      rw [mapM_labels zone_scheme (ob :: rest) h]
      rfl
  · intro hns
    rw [scheme_table, if_neg hns]

/-- C6 witness: the claim's concrete olympiatoppen example, through the
general labeling theorem. -/
theorem zone_labeling_witness :
    format_hr_zones_with_labels (some [⟨5, 120⟩]) "olympiatoppen" =
      Except.ok (some [⟨"I-5 (Olympiatoppen)", 5, 120⟩]) :=
  (((zone_labeling "olympiatoppen" [⟨5, 120⟩] (by decide)).2.2.1 (by simp)).trans (by rfl))

/-- C5 (code behavior at the failing input): an observation with zone 6 is
outside 1..5, yet labeling does not fail — Python's negative indexing turns
index `5 - 6 = -1` into the last table entry, so the zone-1 label is silently
returned; only zones at or below 0 or at or above 11 raise `IndexError`. -/
theorem zone_six_silently_labeled :
    format_hr_zones_with_labels (some [⟨6, 0⟩]) "garmin" =
      Except.ok (some [⟨"Zone 1 (Garmin)", 6, 0⟩]) ∧
    format_hr_zones_with_labels (some [⟨0, 0⟩]) "garmin" =
      Except.error "IndexError: list index out of range" ∧
    format_hr_zones_with_labels (some [⟨11, 0⟩]) "garmin" =
      Except.error "IndexError: list index out of range" :=
  ⟨by rfl, by rfl, by rfl⟩

/-- A calendar date, ordered lexicographically by (year, month, day) exactly
as Python `datetime.date` comparison is. -/
structure Date where
  year : ℕ
  month : ℕ
  day : ℕ
deriving DecidableEq, Repr

/-- Python `a < b` on dates. -/
def Date.lt (a b : Date) : Bool :=
  decide (a.year < b.year ∨ (a.year = b.year ∧
    (a.month < b.month ∨ (a.month = b.month ∧ a.day < b.day))))

/-- Python `a <= b` on dates. -/
def Date.le (a b : Date) : Bool :=
  decide (a.year < b.year ∨ (a.year = b.year ∧
    (a.month < b.month ∨ (a.month = b.month ∧ a.day ≤ b.day))))

lemma Date.not_lt_eq_le (a b : Date) : (!Date.lt a b) = Date.le b a := by
  rw [Date.lt, Date.le, ← decide_not, decide_eq_decide]
  omega

/-- `datetime.min.date()`. -/
def datetime_min_date : Date := ⟨1, 1, 1⟩

/-- `datetime.max.date()`. -/
def datetime_max_date : Date := ⟨9999, 12, 31⟩

/-- Gregorian leap-year rule, as `strptime` date validation applies it. -/
def isLeapYear (y : ℕ) : Bool :=
  y % 4 = 0 && (y % 100 != 0 || y % 400 = 0)

/-- Days in a month, as `strptime` date validation applies it. -/
def daysInMonth (y m : ℕ) : ℕ :=
  if m = 2 then (if isLeapYear y then 29 else 28)
  else if m = 4 ∨ m = 6 ∨ m = 9 ∨ m = 11 then 30
  else 31

/-- Decimal value of a digit string. -/
def digitsToNat (cs : List Char) : ℕ :=
  cs.foldl (fun acc c => acc * 10 + (c.toNat - 48)) 0

/-- An ASCII decimal digit. -/
def isDigit (c : Char) : Bool :=
  decide ('0' ≤ c) && decide (c ≤ '9')

/-- The `%Y` token of CPython `_strptime`: exactly four digits. -/
def yearToken : List Char → Option ℕ
  | [c1, c2, c3, c4] =>
    if isDigit c1 && isDigit c2 && isDigit c3 && isDigit c4 then
      some (digitsToNat [c1, c2, c3, c4])
    else none
  | _ => none

/-- The `%m` token of CPython `_strptime`: `1[0-2]|0[1-9]|[1-9]`. -/
def monthToken : List Char → Option ℕ
  | [c] => if decide ('1' ≤ c) && decide (c ≤ '9') then some (c.toNat - 48) else none
  | [a, b] =>
    if a = '0' && decide ('1' ≤ b) && decide (b ≤ '9') then some (b.toNat - 48)
    else if a = '1' && decide ('0' ≤ b) && decide (b ≤ '2') then some (10 + (b.toNat - 48))
    else none
  | _ => none

/-- The `%d` token of CPython `_strptime`: two digits `30`, `31`, `1x`, `2x`
or `0[1-9]`, a single digit `[1-9]`, or a space-padded ` [1-9]`. -/
def dayToken : List Char → Option ℕ
  | [c] => if decide ('1' ≤ c) && decide (c ≤ '9') then some (c.toNat - 48) else none
  | [a, b] =>
    if a = '3' && (b = '0' || b = '1') then some (30 + (b.toNat - 48))
    else if (a = '1' || a = '2') && isDigit b then
      some ((a.toNat - 48) * 10 + (b.toNat - 48))
    else if a = '0' && decide ('1' ≤ b) && decide (b ≤ '9') then some (b.toNat - 48)
    else if a = ' ' && decide ('1' ≤ b) && decide (b ≤ '9') then some (b.toNat - 48)
    else none
  | _ => none

/-- Split a character sequence at every dash. -/
def splitOnDash : List Char → List (List Char)
  | [] => [[]]
  | c :: rest =>
    if c = '-' then [] :: splitOnDash rest
    else
      match splitOnDash rest with
      | g :: gs => (c :: g) :: gs
      | [] => [[c]]

/-- Embeds `datetime.strptime(s, "%Y-%m-%d").date()` on ASCII text: CPython
matches the whole string against the `%Y`, `%m` and `%d` token patterns
joined by literal dashes (the tokens contain no dash, so the string must be
exactly three dash-separated token groups, the month in 1..12 and the day in
1..31 by the token patterns themselves), then constructs the date, which
rejects a year below 1 and a day beyond the month's length; any failure
raises `ValueError`, modelled as `none`. -/
def parseDate (s : String) : Option Date :=
  match splitOnDash s.toList with
  | [yc, mc, dc] =>
    match yearToken yc, monthToken mc, dayToken dc with
    | some y, some m, some d =>
      if 1 ≤ y ∧ d ≤ daysInMonth y m then some ⟨y, m, d⟩ else none
    | _, _, _ => none
  | _ => none

/-- The error taxonomy raised while loading the override set. -/
inductive LoadError where
  | invalidZoneScheme (zone_scheme : String)
  | invalidDateFormat (field value : String)
  | invalidDateRange (start_date end_date : Date)
  | overlappingOverrides (first_start first_end other_start other_end : Option Date)
deriving DecidableEq, Repr

/-- Embeds `parse_date_or_none`: `None` and `""` both parse to `None`; other
text must parse as `YYYY-MM-DD` or the invalid-date error naming the field is
raised. -/
def parse_date_or_none (date_str : Option String) (field_name : String) :
    Except LoadError (Option Date) :=
  match date_str with
  | none => Except.ok none
  | some s =>
    if s = "" then Except.ok none
    else
      match parseDate s with
      | some d => Except.ok (some d)
      | none => Except.error (LoadError.invalidDateFormat field_name s)

/-- A raw override entry as read from the JSON document. -/
structure RawEntry where
  zone_scheme : Option String
  start_date : Option String
  end_date : Option String
  device : Option String
  max_hr : Option ℤ
deriving DecidableEq, Repr

/-- A validated override record. -/
structure Override where
  start_date : Option Date
  end_date : Option Date
  device : Option String
  max_hr : Option ℤ
  zone_scheme : String
deriving DecidableEq, Repr

/-- Embeds the per-entry body of the loading loop in
`load_hr_profile_overrides`: normalize and check the zone scheme, parse both
dates, reject a start after the end, and build the override record. -/
def load_override_entry (entry : RawEntry) : Except LoadError Override :=
  let zone_scheme := (entry.zone_scheme.getD "").toLower
  if zone_scheme = "garmin" ∨ zone_scheme = "olympiatoppen" then
    do
      let start_date ← parse_date_or_none entry.start_date "start_date"
      let end_date ← parse_date_or_none entry.end_date "end_date"
      match start_date, end_date with
      | some s, some e =>
        if Date.lt e s then Except.error (LoadError.invalidDateRange s e)
        else Except.ok ⟨start_date, end_date, entry.device, entry.max_hr, zone_scheme⟩
      | _, _ => Except.ok ⟨start_date, end_date, entry.device, entry.max_hr, zone_scheme⟩
  else Except.error (LoadError.invalidZoneScheme zone_scheme)

/-- `range_bounds` from `validate_hr_profile_overlaps`: a missing start is the
minimum representable date, a missing end the maximum representable date. -/
def range_bounds (item : Override) : Date × Date :=
  (item.start_date.getD datetime_min_date, item.end_date.getD datetime_max_date)

/-- The inner loop of `validate_hr_profile_overlaps`: scan the overrides after
`current` for one whose range intersects it. -/
def overlap_found (current : Override) : List Override → Option LoadError
  | [] => none
  | other :: more =>
    if Date.le (range_bounds current).1 (range_bounds other).2 &&
        Date.le (range_bounds other).1 (range_bounds current).2 then
      some (LoadError.overlappingOverrides current.start_date current.end_date
        other.start_date other.end_date)
    else overlap_found current more

/-- Embeds `validate_hr_profile_overlaps`: every pair of overrides is checked
with the bounds inequality, and the first intersecting pair raises. -/
def validate_hr_profile_overlaps : List Override → Except LoadError Unit
  | [] => Except.ok ()
  | current :: rest =>
    match overlap_found current rest with
    | some e => Except.error e
    | none => validate_hr_profile_overlaps rest

/-- The possible states of the configured overrides file: no configured path,
a configured path that does not exist, a file whose contents cannot be read
or parsed as JSON, or a successfully parsed JSON document. -/
inductive RawFile where
  | noPath
  | missingFile
  | unreadable
  | parsed (entries : List RawEntry)
deriving DecidableEq, Repr

/-- Embeds `load_hr_profile_overrides`: a missing path, missing file or
unreadable/unparsable file yields the empty override set with only a printed
warning; a parsed document is validated entry by entry and then checked for
overlaps. -/
def load_hr_profile_overrides (file : RawFile) : Except LoadError (List Override) :=
  match file with
  | RawFile.noPath => Except.ok []
  | RawFile.missingFile => Except.ok []
  | RawFile.unreadable => Except.ok []
  | RawFile.parsed entries => do
      let overrides ← List.mapM load_override_entry entries
      let _ ← validate_hr_profile_overlaps overrides
      Except.ok overrides

/-- The context `get_hr_zone_context` returns. -/
structure HrZoneContext where
  zone_scheme : String
  max_hr : Option ℤ
  device : Option String
deriving DecidableEq, Repr

/-- The per-override test of the selection loop in `get_hr_zone_context`:
skip when a start exists and the date precedes it, or an end exists and the
date follows it. -/
def matches_override (activity_date : Date) (override : Override) : Bool :=
  (match override.start_date with
    | some start => !(Date.lt activity_date start)
    | none => true) &&
  (match override.end_date with
    | some e => !(Date.lt e activity_date)
    | none => true)

/-- Embeds `get_hr_zone_context`: with no activity date the default garmin
context; otherwise the first override whose bounds admit the date, or the
default when none does. -/
def get_hr_zone_context (activity_date : Option Date) (overrides : List Override) :
    HrZoneContext :=
  match activity_date with
  | none => ⟨"garmin", none, none⟩
  | some d =>
    match overrides.find? (matches_override d) with
    | none => ⟨"garmin", none, none⟩
    | some selected => ⟨selected.zone_scheme, selected.max_hr, selected.device⟩

/-- The claim's containment test: inclusive bounds, a null start unboundedly
early and a null end unboundedly late. -/
def claim_contains (override : Override) (d : Date) : Bool :=
  (match override.start_date with
    | some s => Date.le s d
    | none => true) &&
  (match override.end_date with
    | some e => Date.le d e
    | none => true)

lemma matches_eq_contains (d : Date) (o : Override) :
    matches_override d o = claim_contains o d := by
  rw [matches_override, claim_contains]
  cases o.start_date <;> cases o.end_date <;> simp [Date.not_lt_eq_le]

/-- C2: profile resolution returns the default garmin context when the date
is absent, the set is empty, or no override's inclusive bounds (null start
unboundedly early, null end unboundedly late) contain the date; otherwise the
zone scheme, max HR and device of the first override in load order whose
bounds contain the date; the function is total, so it never fails. -/
theorem profile_resolution (overrides : List Override) (d : Date) :
    get_hr_zone_context none overrides = ⟨"garmin", none, none⟩ ∧
    get_hr_zone_context (some d) [] = ⟨"garmin", none, none⟩ ∧
    ((∀ o ∈ overrides, claim_contains o d = false) →
      get_hr_zone_context (some d) overrides = ⟨"garmin", none, none⟩) ∧
    (∀ i, ∀ hi : i < overrides.length,
      claim_contains overrides[i] d = true →
      (∀ j, ∀ hj : j < i, claim_contains (overrides.get ⟨j, Nat.lt_trans hj hi⟩) d = false) →
      get_hr_zone_context (some d) overrides =
        ⟨overrides[i].zone_scheme, overrides[i].max_hr, overrides[i].device⟩) := by
  refine ⟨rfl, rfl, ?_, ?_⟩
  · intro hnone
    have hfind : overrides.find? (matches_override d) = none :=
      List.find?_eq_none.mpr fun o ho => by
        simp [matches_eq_contains, hnone o ho]
    simp only [get_hr_zone_context, hfind]
  · intro i hi hc hprev
    have hfind : overrides.find? (matches_override d) = some overrides[i] :=
      List.find?_eq_some_iff_getElem.mpr
        ⟨by rw [matches_eq_contains]; exact hc,
          i, hi, rfl, fun j hj => by
            rw [Bool.not_eq_true', matches_eq_contains]
            exact hprev j hj⟩
    simp only [get_hr_zone_context, hfind]

/-- C2 witness: a date strictly between two disjoint overrides resolves to
the default context. -/
theorem profile_resolution_witness :
    get_hr_zone_context (some ⟨2020, 7, 15⟩)
      [⟨some ⟨2020, 1, 1⟩, some ⟨2020, 6, 30⟩, some "fenix", some 190, "garmin"⟩,
        ⟨some ⟨2020, 9, 1⟩, some ⟨2020, 12, 31⟩, some "hrm", some 185, "olympiatoppen"⟩] =
      ⟨"garmin", none, none⟩ :=
  (profile_resolution
      [⟨some ⟨2020, 1, 1⟩, some ⟨2020, 6, 30⟩, some "fenix", some 190, "garmin"⟩,
        ⟨some ⟨2020, 9, 1⟩, some ⟨2020, 12, 31⟩, some "hrm", some 185, "olympiatoppen"⟩]
      ⟨2020, 7, 15⟩).2.2.1 (by decide)

/-- The claim's interval intersection test on two overrides, nulls replaced by
the minimum and maximum representable dates: `s1 <= e2 AND s2 <= e1`. -/
def claim_overlap (o1 o2 : Override) : Prop :=
  Date.le (o1.start_date.getD datetime_min_date) (o2.end_date.getD datetime_max_date) = true ∧
  Date.le (o2.start_date.getD datetime_min_date) (o1.end_date.getD datetime_max_date) = true

instance (o1 o2 : Override) : Decidable (claim_overlap o1 o2) :=
  decidable_of_iff
    (Date.le (o1.start_date.getD datetime_min_date) (o2.end_date.getD datetime_max_date) = true ∧
      Date.le (o2.start_date.getD datetime_min_date) (o1.end_date.getD datetime_max_date) = true)
    (by rw [claim_overlap])

lemma overlap_cond_iff (cur other : Override) :
    (Date.le (range_bounds cur).1 (range_bounds other).2 &&
      Date.le (range_bounds other).1 (range_bounds cur).2) = true ↔
      claim_overlap cur other := by
  rw [Bool.and_eq_true, claim_overlap, range_bounds, range_bounds]

lemma overlap_found_none_iff (cur : Override) (rest : List Override) :
    overlap_found cur rest = none ↔ ∀ o ∈ rest, ¬ claim_overlap cur o := by
  induction rest with
  | nil => simp [overlap_found]
  | cons other more ih =>
    rw [overlap_found]
    split
    · rename_i hcond
      simp only [reduceCtorEq, false_iff]
      intro hall
      exact hall other (by simp) ((overlap_cond_iff cur other).mp hcond)
    · rename_i hcond
      rw [ih]
      constructor
      · intro hall o ho
        rcases List.mem_cons.mp ho with rfl | ho
        · exact fun hov => hcond ((overlap_cond_iff cur o).mpr hov)
        · exact hall o ho
      · intro hall o ho
        exact hall o (List.mem_cons_of_mem _ ho)

lemma overlap_found_some (cur : Override) (rest : List Override) (e : LoadError)
    (h : overlap_found cur rest = some e) :
    ∃ o ∈ rest, claim_overlap cur o ∧
      e = LoadError.overlappingOverrides cur.start_date cur.end_date
        o.start_date o.end_date := by
  induction rest with
  | nil => exact absurd h (by simp [overlap_found])
  | cons other more ih =>
    rw [overlap_found] at h
    split at h
    · rename_i hcond
      exact ⟨other, by simp, (overlap_cond_iff cur other).mp hcond,
        (Option.some.injEq _ _).mp h.symm⟩
    · obtain ⟨o, ho, hov, he⟩ := ih h
      exact ⟨o, List.mem_cons_of_mem _ ho, hov, he⟩

lemma validate_ok_iff (overrides : List Override) :
    validate_hr_profile_overlaps overrides = Except.ok () ↔
      overrides.Pairwise fun o1 o2 => ¬ claim_overlap o1 o2 := by
  induction overrides with
  | nil => simp [validate_hr_profile_overlaps]
  | cons cur rest ih =>
    rw [validate_hr_profile_overlaps, List.pairwise_cons, ← ih,
      ← overlap_found_none_iff cur rest]
    cases h : overlap_found cur rest <;> simp [h]

/-- C3: the overlap validator accepts an override set iff no two entries'
ranges (nulls as the minimum and maximum representable dates) satisfy
`s1 <= e2 AND s2 <= e1`; when it rejects, the error identifies the ranges of
two members of the set that do overlap. -/
theorem overlap_rejection (overrides : List Override) (e : LoadError) :
    (validate_hr_profile_overlaps overrides = Except.ok () ↔
      overrides.Pairwise fun o1 o2 => ¬ claim_overlap o1 o2) ∧
    (validate_hr_profile_overlaps overrides = Except.error e →
      ∃ o1 ∈ overrides, ∃ o2 ∈ overrides, claim_overlap o1 o2 ∧
        e = LoadError.overlappingOverrides o1.start_date o1.end_date
          o2.start_date o2.end_date) := by
  refine ⟨validate_ok_iff overrides, ?_⟩
  induction overrides with
  | nil => intro h; exact absurd h (by simp [validate_hr_profile_overlaps])
  | cons cur rest ih =>
    intro h
    rw [validate_hr_profile_overlaps] at h
    split at h
    · rename_i he
      obtain ⟨o, ho, hov, rfl⟩ := overlap_found_some cur rest e
        (by rw [he]; exact (Except.error.injEq _ _).mp h ▸ rfl)
      exact ⟨cur, by simp, o, List.mem_cons_of_mem _ ho, hov, rfl⟩
    · obtain ⟨o1, h1, o2, h2, hov, he⟩ := ih h
      exact ⟨o1, List.mem_cons_of_mem _ h1, o2, List.mem_cons_of_mem _ h2, hov, he⟩

/-- C3 witness: an overlapping pair is rejected and a disjoint pair passes,
at concrete ranges. -/
theorem overlap_rejection_witness :
    validate_hr_profile_overlaps
      [⟨some ⟨2020, 1, 1⟩, some ⟨2020, 6, 30⟩, none, none, "garmin"⟩,
        ⟨some ⟨2020, 6, 1⟩, some ⟨2020, 12, 31⟩, none, none, "garmin"⟩] =
      Except.error (LoadError.overlappingOverrides (some ⟨2020, 1, 1⟩) (some ⟨2020, 6, 30⟩)
        (some ⟨2020, 6, 1⟩) (some ⟨2020, 12, 31⟩)) ∧
    validate_hr_profile_overlaps
      [⟨some ⟨2020, 1, 1⟩, some ⟨2020, 6, 30⟩, none, none, "garmin"⟩,
        ⟨some ⟨2020, 9, 1⟩, some ⟨2020, 12, 31⟩, none, none, "garmin"⟩] =
      Except.ok () :=
  ⟨by rfl,
    (overlap_rejection
        [⟨some ⟨2020, 1, 1⟩, some ⟨2020, 6, 30⟩, none, none, "garmin"⟩,
          ⟨some ⟨2020, 9, 1⟩, some ⟨2020, 12, 31⟩, none, none, "garmin"⟩]
        (LoadError.invalidZoneScheme "")).1.mpr (by decide)⟩

/-- C9: a configured overrides file that exists but cannot be read or parsed
as JSON loads as the empty override set (under which every date resolves to
the default context) without raising; load-time validation errors arise only
from a successfully parsed document. -/
theorem unreadable_overrides_file (f : RawFile) (e : LoadError) (d : Date) :
    ((f = RawFile.noPath ∨ f = RawFile.missingFile ∨ f = RawFile.unreadable) →
      load_hr_profile_overrides f = Except.ok [] ∧
      get_hr_zone_context (some d) [] = ⟨"garmin", none, none⟩) ∧
    (load_hr_profile_overrides f = Except.error e →
      ∃ entries, f = RawFile.parsed entries) := by
  constructor
  · rintro (rfl | rfl | rfl) <;> exact ⟨rfl, rfl⟩
  · intro herr
    cases f with
    | parsed entries => exact ⟨entries, rfl⟩
    | noPath => exact absurd herr (by simp [load_hr_profile_overrides])
    | missingFile => exact absurd herr (by simp [load_hr_profile_overrides])
    | unreadable => exact absurd herr (by simp [load_hr_profile_overrides])

/-- C9 witness: the unreadable-file state at a concrete date. -/
theorem unreadable_overrides_file_witness :
    load_hr_profile_overrides RawFile.unreadable = Except.ok [] ∧
    get_hr_zone_context (some ⟨2024, 5, 1⟩) [] = ⟨"garmin", none, none⟩ :=
  (unreadable_overrides_file RawFile.unreadable (LoadError.invalidZoneScheme "")
      ⟨2024, 5, 1⟩).1 (Or.inr (Or.inr rfl))

/-- C10: a `None` or empty-string date bound parses to the null bound and is
accepted, so an entry with an empty-string bound loads exactly like the same
entry with a null bound; a date error is raised only for non-empty text that
fails `YYYY-MM-DD` parsing, and it names the offending field. -/
theorem empty_string_date_bound (field s : String) (entry : RawEntry) (err : LoadError) :
    parse_date_or_none none field = Except.ok none ∧
    parse_date_or_none (some "") field = Except.ok none ∧
    (s ≠ "" → parseDate s = none →
      parse_date_or_none (some s) field = Except.error (LoadError.invalidDateFormat field s)) ∧
    (parse_date_or_none (some s) field = Except.error err →
      s ≠ "" ∧ parseDate s = none ∧ err = LoadError.invalidDateFormat field s) ∧
    load_override_entry { entry with start_date := some "" } =
      load_override_entry { entry with start_date := none } ∧
    load_override_entry { entry with end_date := some "" } =
      load_override_entry { entry with end_date := none } ∧
    parseDate "2020-01-05" = some ⟨2020, 1, 5⟩ ∧
    parseDate "2020-1-5" = some ⟨2020, 1, 5⟩ ∧
    parseDate "2020-01- 5" = some ⟨2020, 1, 5⟩ ∧
    parseDate "99-01-01" = none ∧
    parseDate "2021-02-29" = none ∧
    parseDate "2020-02-29" = some ⟨2020, 2, 29⟩ := by
  refine ⟨rfl, by rw [parse_date_or_none, if_pos rfl], ?_, ?_, ?_, ?_,
    by decide, by decide, by decide, by decide, by decide, by decide⟩
  · intro hne hparse
    rw [parse_date_or_none, if_neg hne, hparse]
  · intro herr
    rw [parse_date_or_none] at herr
    by_cases hne : s = ""
    · rw [if_pos hne] at herr
      exact absurd herr (by simp)
    · rw [if_neg hne] at herr
      cases hparse : parseDate s with
      | some dd => rw [hparse] at herr; exact absurd herr (by simp)
      | none =>
        rw [hparse] at herr
        exact ⟨hne, rfl, ((Except.error.injEq _ _).mp herr).symm⟩
  · show load_override_entry _ = load_override_entry _
    rw [load_override_entry, load_override_entry]
    have hp : parse_date_or_none (some "") "start_date" =
        parse_date_or_none none "start_date" := by rfl
    simp only [hp]
  · show load_override_entry _ = load_override_entry _
    rw [load_override_entry, load_override_entry]
    have hp : parse_date_or_none (some "") "end_date" =
        parse_date_or_none none "end_date" := by rfl
    simp only [hp]

/-- C10 witness: a malformed non-empty date raises the field-naming error, and
an entry with empty-string bounds loads like one with null bounds. -/
theorem empty_string_date_bound_witness :
    parse_date_or_none (some "2020-13-40") "start_date" =
      Except.error (LoadError.invalidDateFormat "start_date" "2020-13-40") ∧
    load_override_entry ⟨some "garmin", some "", none, none, none⟩ =
      load_override_entry ⟨some "garmin", none, none, none, none⟩ :=
  ⟨(empty_string_date_bound "start_date" "2020-13-40"
        ⟨some "garmin", some "", none, none, none⟩
        (LoadError.invalidZoneScheme "")).2.2.1 (by decide) (by rfl),
    (empty_string_date_bound "start_date" "2020-13-40"
        ⟨some "garmin", some "", none, none, none⟩
        (LoadError.invalidZoneScheme "")).2.2.2.2.1⟩

/-- Embeds the body-battery extraction loop of `fetch_daily_summary`, with
each day entry's `bodyBatteryValuesArray` already projected to its battery
values: `values` is rebound on every loop iteration, so after the loop only
the last entry's values remain; a falsy (absent or empty) result leaves the
summary field `None`. -/
def body_battery_values_of_day (bb_data : List (List ℤ)) : Option (List ℤ) :=
  match bb_data.getLast? with
  | none => none
  | some values => if values = [] then none else some values

/-- `max(body_battery_values) if body_battery_values else None` from the
`/api/status` route. -/
def body_battery_start_of (values : Option (List ℤ)) : Option ℤ :=
  match values with
  | none => none
  | some [] => none
  | some (v :: rest) => some (rest.foldl max v)

/-- `body_battery_values[-1] if body_battery_values else None` from the
`/api/status` route. -/
def body_battery_current_of (values : Option (List ℤ)) : Option ℤ :=
  match values with
  | none => none
  | some [] => none
  | some (v :: rest) => some ((v :: rest).getLast (List.cons_ne_nil v rest))

/-- The `energy_zones` lookup of the `/api/status` route, with the `"red"`
default of `energy_zones.get(subjective_energy, "red")`. -/
def energy_zones (e : ℤ) : Status :=
  if e = 10 ∨ e = 9 ∨ e = 8 ∨ e = 7 then Status.green
  else if e = 6 ∨ e = 5 then Status.yellow
  else if e = 4 ∨ e = 3 ∨ e = 2 ∨ e = 1 then Status.red
  else Status.red

/-- The outputs of the `/api/status` route that depend on the core logic:
the four scored statuses, the display-only current battery (whose status
slot is the constant `None`), the energy-zone guidance, and the overall
status with its recommendation. -/
structure StatusPage where
  hrv_status : Status
  body_battery_status : Status
  sleep_score_status : Status
  resting_hr_status : Status
  body_battery_current : Option ℤ
  body_battery_current_status : Option Status
  energy_zone : Option Status
  overall_status : Status
  recommendation : String
deriving DecidableEq, Repr

/-- Embeds the metric extraction, classification and aggregation of the
`/api/status` route body. -/
def build_status_page (hrv : Option ℚ) (bb_data : List (List ℤ))
    (sleep_score resting_hr : Option ℚ) (subjective_energy : Option ℤ) : StatusPage :=
  let body_battery_values := body_battery_values_of_day bb_data
  let body_battery_start := body_battery_start_of body_battery_values
  let hrv_status := hrv_status_of hrv
  let body_battery_status := body_battery_status_of (body_battery_start.map fun v => (v : ℚ))
  let sleep_score_status := sleep_score_status_of sleep_score
  let resting_hr_status := resting_hr_status_of resting_hr
  let overall :=
    overall_of [hrv_status, body_battery_status, sleep_score_status, resting_hr_status]
  { hrv_status := hrv_status
    body_battery_status := body_battery_status
    sleep_score_status := sleep_score_status
    resting_hr_status := resting_hr_status
    body_battery_current := body_battery_current_of body_battery_values
    body_battery_current_status := none
    energy_zone := subjective_energy.map energy_zones
    overall_status := overall.1
    recommendation := overall.2 }

/-- Embeds the `/api/status` route: an energy score outside 1..10 is rejected
with a request-level error before any metric work; otherwise the page is
built from the day's metrics. -/
def status_endpoint (hrv : Option ℚ) (bb_data : List (List ℤ))
    (sleep_score resting_hr : Option ℚ) (subjective_energy : Option ℤ) :
    Except String StatusPage :=
  match subjective_energy with
  | some e =>
    if e < 1 ∨ e > 10 then Except.error "Energy score must be between 1-10"
    else Except.ok (build_status_page hrv bb_data sleep_score resting_hr (some e))
  | none => Except.ok (build_status_page hrv bb_data sleep_score resting_hr none)

/-- Follows the spec's words for the start-of-day body battery: the maximum
body-battery value observed across all of the day's entries. -/
def spec_body_battery_day_max (bb_data : List (List ℤ)) : Option ℤ :=
  match bb_data.flatten with
  | [] => none
  | v :: rest => some (rest.foldl max v)

/-- C4 (code behavior at the failing input): for the two-entry day
`[[80], [40]]` the value the readiness evaluation classifies is 40 — the
maximum of only the last iterated entry — not 80, the maximum across all of
the day's observations, so the code classifies the day red instead of
green. -/
theorem body_battery_start_keeps_last_entry :
    body_battery_start_of (body_battery_values_of_day [[80], [40]]) = some 40 ∧
    spec_body_battery_day_max [[80], [40]] = some 80 ∧
    body_battery_start_of (body_battery_values_of_day [[80], [40]]) ≠
      spec_body_battery_day_max [[80], [40]] ∧
    body_battery_status_of (some 40) = Status.red ∧
    body_battery_status_of (some 80) = Status.green := by
  refine ⟨rfl, rfl, by decide, rfl, rfl⟩

lemma status_endpoint_ok (hrv : Option ℚ) (bb_data : List (List ℤ))
    (sleep_score resting_hr : Option ℚ) (subjective_energy : Option ℤ) (p : StatusPage)
    (h : status_endpoint hrv bb_data sleep_score resting_hr subjective_energy =
      Except.ok p) :
    p = build_status_page hrv bb_data sleep_score resting_hr subjective_energy := by
  cases subjective_energy with
  | none =>
    have h' : Except.ok (build_status_page hrv bb_data sleep_score resting_hr none) =
        Except.ok p := h
    exact ((Except.ok.injEq _ _).mp h').symm
  | some v =>
    have h' : (if v < 1 ∨ v > 10 then
          (Except.error "Energy score must be between 1-10" : Except String StatusPage)
        else Except.ok (build_status_page hrv bb_data sleep_score resting_hr (some v))) =
        Except.ok p := h
    split at h'
    · exact absurd h' (by simp)
    · exact ((Except.ok.injEq _ _).mp h').symm

/-- C8: any two successful evaluations whose four scored statuses agree have
the same overall status and recommendation, whatever the body-battery series
(hence the displayed current value) and whatever valid subjective energy is
or is not supplied; the current battery's status slot is the constant
not-applicable `None`. -/
theorem unscored_noninterference
    (hrv1 hrv2 sleep1 sleep2 rhr1 rhr2 : Option ℚ) (bb1 bb2 : List (List ℤ))
    (e1 e2 : Option ℤ) (p1 p2 : StatusPage)
    (h1 : status_endpoint hrv1 bb1 sleep1 rhr1 e1 = Except.ok p1)
    (h2 : status_endpoint hrv2 bb2 sleep2 rhr2 e2 = Except.ok p2)
    (hh : p1.hrv_status = p2.hrv_status)
    (hb : p1.body_battery_status = p2.body_battery_status)
    (hs : p1.sleep_score_status = p2.sleep_score_status)
    (hr : p1.resting_hr_status = p2.resting_hr_status) :
    p1.overall_status = p2.overall_status ∧ p1.recommendation = p2.recommendation ∧
    p1.body_battery_current_status = none := by
  have hp1 := status_endpoint_ok hrv1 bb1 sleep1 rhr1 e1 p1 h1
  have hp2 := status_endpoint_ok hrv2 bb2 sleep2 rhr2 e2 p2 h2
  subst hp1
  subst hp2
  refine ⟨?_, ?_, rfl⟩
  · show (overall_of [(build_status_page hrv1 bb1 sleep1 rhr1 e1).hrv_status,
        (build_status_page hrv1 bb1 sleep1 rhr1 e1).body_battery_status,
        (build_status_page hrv1 bb1 sleep1 rhr1 e1).sleep_score_status,
        (build_status_page hrv1 bb1 sleep1 rhr1 e1).resting_hr_status]).1 =
      (overall_of [(build_status_page hrv2 bb2 sleep2 rhr2 e2).hrv_status,
        (build_status_page hrv2 bb2 sleep2 rhr2 e2).body_battery_status,
        (build_status_page hrv2 bb2 sleep2 rhr2 e2).sleep_score_status,
        (build_status_page hrv2 bb2 sleep2 rhr2 e2).resting_hr_status]).1
    rw [hh, hb, hs, hr]
  · show (overall_of [(build_status_page hrv1 bb1 sleep1 rhr1 e1).hrv_status,
        (build_status_page hrv1 bb1 sleep1 rhr1 e1).body_battery_status,
        (build_status_page hrv1 bb1 sleep1 rhr1 e1).sleep_score_status,
        (build_status_page hrv1 bb1 sleep1 rhr1 e1).resting_hr_status]).2 =
      (overall_of [(build_status_page hrv2 bb2 sleep2 rhr2 e2).hrv_status,
        (build_status_page hrv2 bb2 sleep2 rhr2 e2).body_battery_status,
        (build_status_page hrv2 bb2 sleep2 rhr2 e2).sleep_score_status,
        (build_status_page hrv2 bb2 sleep2 rhr2 e2).resting_hr_status]).2
    rw [hh, hb, hs, hr]

/-- C8 witness: two all-green days differing in current battery and in
supplied energy score produce the same overall status and recommendation. -/
theorem unscored_noninterference_witness :
    (build_status_page (some 70) [[80, 80]] (some 80) (some 45) none).overall_status =
      (build_status_page (some 90) [[100, 30]] (some 90) (some 40)
        (some 3)).overall_status ∧
    (build_status_page (some 70) [[80, 80]] (some 80) (some 45) none).recommendation =
      (build_status_page (some 90) [[100, 30]] (some 90) (some 40)
        (some 3)).recommendation ∧
    (build_status_page (some 70) [[80, 80]] (some 80) (some 45)
      none).body_battery_current_status = none :=
  unscored_noninterference (some 70) (some 90) (some 80) (some 90) (some 45) (some 40)
    [[80, 80]] [[100, 30]] none (some 3)
    (build_status_page (some 70) [[80, 80]] (some 80) (some 45) none)
    (build_status_page (some 90) [[100, 30]] (some 90) (some 40) (some 3))
    (by rfl) (by rfl) (by rfl) (by rfl) (by rfl) (by rfl)
